import Mathlib

/-!
Shallow embedding of the verified file-move primitive of
scripts/backlog_maintainer_verification.py (class FileOperationVerifier).

Modelling decisions, stated once here:

* The content of a file is a byte list (`Content := List Nat`); a path is a
  string.  The filesystem is a partial map `FPath → Option Content`;
  `st_size` is the length of the content.

* The SHA256 checksum is modelled as an arbitrary function
  `hash : Content → Nat`, passed as a parameter, so every theorem holds
  for any checksum function (in particular for SHA256).  Reads and stat
  calls on existing files never fail, matching the single-threaded,
  no-external-interference model of the script; hence `_calculate_checksum`
  of the (existing) source never returns None and the truthiness guard
  `if expected_checksum:` is always taken.

* The OS primitives the script drives are nondeterministic: the entire
  point of the verifier is that `shutil.move` may return normally while
  the filesystem does not reflect a complete move.  An `Env` value fixes,
  for one call, the behaviour of each primitive: `shutil.move` either
  raises (modelled as leaving the filesystem unchanged) or returns
  normally having removed the source or not and having written some
  (possibly wrong, possibly no) content at the target; `shutil.copy2`
  and `Path.unlink` either raise (no-op) or behave correctly.

* `time.sleep`, log files on disk (`_save_logs`), timestamps, the console
  logger, and `mkdir` of the parent of the destination are abstracted away:
  they do not affect any claimed property.  The timestamp component of the backup
  filename is abstracted: `backupPathOf` is a fixed injection
  from source paths into the backup directory namespace.

* Only the MOVE branch of `_verify_file_operation` is embedded: every
  claim concerns `move_with_verification`, which always calls the
  verifier with `OperationType.MOVE`.

* The in-memory lists `operation_log`, `error_log` and
  `verification_failures` are embedded as lists that the operations
  append to at the end, exactly where the Python appends.
  `_log_error` entries keep their `type` string; `_log_verification_failure`
  entries keep which of the four MOVE checks failed (the Python stores the
  corresponding formatted message).
-/

abbrev Content := List Nat

abbrev FPath := String

abbrev FS := FPath → Option Content

def fsExists (fs : FS) (p : FPath) : Bool :=
  (fs p).isSome

def fsGet (fs : FS) (p : FPath) : Content :=
  (fs p).getD []

def fsSet (fs : FS) (p : FPath) (c : Content) : FS :=
  Function.update fs p (some c)

def fsDel (fs : FS) (p : FPath) : FS :=
  Function.update fs p none

/-- Audit-trail entry appended by `_log_operation` (operation type is always
MOVE for the embedded operation; timestamp abstracted; the `details` dict is
kept as the optional error message, `none` on success). -/
structure OpRecord where
  success : Bool
  source : FPath
  destination : FPath
  errorDetail : Option String
deriving DecidableEq, Repr

/-- Entry of `error_log`, appended by `_log_error`: we keep the `type` field
("source_not_found", "destination_exists", "move_exception",
"rollback_failed", ...). -/
structure ErrEntry where
  etype : String
deriving DecidableEq, Repr

/-- Which check of the MOVE branch of `_verify_file_operation` failed. -/
inductive VerifyErr where
  | destMissing
  | sourceStillExists
  | destEmpty
  | checksumMismatch
deriving DecidableEq, Repr

/-- Entry of `verification_failures`, appended by `_log_verification_failure`. -/
structure VFail where
  verror : VerifyErr
  source : FPath
  destination : FPath
deriving DecidableEq, Repr

/-- The mutable state of a FileOperationVerifier instance together with the
filesystem it operates on. -/
structure VState where
  fs : FS
  operation_log : List OpRecord
  error_log : List ErrEntry
  verification_failures : List VFail
  enable_rollback : Bool

/-- Behaviour of one `shutil.move src dst` call: it raises, or it returns
normally with `sourceRemoved` telling whether `src` was actually removed and
`destContent` the content actually present at `dst` afterwards (`none`:
nothing was written at `dst`).  The honest behaviour is
`returns (some (content of src)) true`. -/
inductive MoveRes where
  | raises
  | returns (destContent : Option Content) (sourceRemoved : Bool)
deriving DecidableEq, Repr

/-- Environment of one `move_with_verification` call: the behaviour of each
OS primitive it may invoke.  `backupOk`: the `shutil.copy2` inside
`_create_backup` succeeds (else it raises and `_create_backup` returns None).
`moveRes`: behaviour of the main `shutil.move(source, destination)`.
`rbMoveRes`: behaviour of `shutil.move(destination, source)` inside
`_perform_rollback`.  `restoreOk`: the `shutil.copy2(backup, source)`
(in `_perform_rollback` or in the move-exception handler) succeeds.
`rbUnlinkOk`: the `failed_destination.unlink()` inside `_perform_rollback`
succeeds.  `cleanupUnlinkOk`: the `backup_path.unlink()` after a verified
move succeeds. -/
structure Env where
  backupOk : Bool
  moveRes : MoveRes
  rbMoveRes : MoveRes
  restoreOk : Bool
  rbUnlinkOk : Bool
  cleanupUnlinkOk : Bool
deriving DecidableEq, Repr

/-- Effect on the filesystem of a `shutil.move src dst` call that behaved as
`r` (a raising call leaves the filesystem unchanged). -/
def applyMove (fs : FS) (src dst : FPath) : MoveRes → FS
  | .raises => fs
  | .returns destContent sourceRemoved =>
    let fs1 := if sourceRemoved then fsDel fs src else fs
    match destContent with
    | some c => fsSet fs1 dst c
    | none => fs1

/-- Backup file name used by `_create_backup`: the backup directory joined
with the name of the source and a ".backup" suffix (timestamp abstracted). -/
def backupPathOf (source : FPath) : FPath :=
  ".backlog_backups/" ++ source ++ ".backup"

/-- Embedding of `_log_operation`: append one audit record (and save logs). -/
def log_operation (s : VState) (success : Bool) (source destination : FPath)
    (errorDetail : Option String) : VState :=
  { s with operation_log :=
      s.operation_log ++ [⟨success, source, destination, errorDetail⟩] }

/-- Embedding of `_log_error`: append one error-log entry (and save logs). -/
def log_error (s : VState) (etype : String) : VState :=
  { s with error_log := s.error_log ++ [⟨etype⟩] }

/-- Embedding of `_log_verification_failure`: append one verification-failure entry. -/
def log_verification_failure (s : VState) (e : VerifyErr)
    (source destination : FPath) : VState :=
  { s with verification_failures :=
      s.verification_failures ++ [⟨e, source, destination⟩] }

/-- Embedding of `_create_backup` as called from `move_with_verification` (the source is
known to exist there, the pre-flight check passed and nothing runs in
between): copy the source to the backup path; on an exception return `none`;
the size re-check after a correct copy always passes. -/
def create_backup (env : Env) (s : VState) (source : FPath) :
    VState × Option FPath :=
  if env.backupOk then
    ({ s with fs := fsSet s.fs (backupPathOf source) (fsGet s.fs source) },
      some (backupPathOf source))
  else
    (s, none)

/-- The MOVE branch of `_verify_file_operation`: after the settling sleep,
re-stat the filesystem: the destination must exist, the source must be gone,
the destination must not be 0 bytes, and the recomputed destination checksum
must equal the expected one.  Each failing check appends one
verification-failure entry and returns False. -/
def verify_file_operation (hash : Content → Nat) (s : VState)
    (source destination : FPath) (expected : Nat) : Bool × VState :=
  if ¬ fsExists s.fs destination then
    (false, log_verification_failure s .destMissing source destination)
  else if fsExists s.fs source then
    (false, log_verification_failure s .sourceStillExists source destination)
  else if (fsGet s.fs destination).length = 0 then
    (false, log_verification_failure s .destEmpty source destination)
  else if ¬ hash (fsGet s.fs destination) = expected then
    (false, log_verification_failure s .checksumMismatch source destination)
  else
    (true, s)

/-- The backup-restore half of `_perform_rollback` (lines after the
move-back attempt): if a backup exists, copy it back over the source, then
remove any partial destination; a raising `copy2` or `unlink` is caught by
the enclosing try and logged as a "rollback_failed" error; if no backup is
available the rollback fails with only a console message. -/
def rollback_from_backup (env : Env) (s : VState)
    (source destination : FPath) (backup : Option FPath) : Bool × VState :=
  match backup with
  | some bp =>
    if fsExists s.fs bp then
      if env.restoreOk then
        let s1 := { s with fs := fsSet s.fs source (fsGet s.fs bp) }
        if fsExists s1.fs destination then
          if env.rbUnlinkOk then
            (true, { s1 with fs := fsDel s1.fs destination })
          else
            (false, log_error s1 "rollback_failed")
        else
          (true, s1)
      else
        (false, log_error s "rollback_failed")
    else
      (false, s)
  | none => (false, s)

/-- Embedding of `_perform_rollback`: first try to move the file back from the failed
destination (verifying by re-stat that the source exists and the destination
is gone afterwards); if that is unavailable or its re-check fails, fall back
to restoring from the backup.  Any exception inside is caught, logged as a
"rollback_failed" error, and makes the rollback report failure. -/
def perform_rollback (env : Env) (s : VState)
    (source destination : FPath) (backup : Option FPath) : Bool × VState :=
  if fsExists s.fs destination then
    match env.rbMoveRes with
    | .raises => (false, log_error s "rollback_failed")
    | .returns sc dr =>
      let fs1 := applyMove s.fs destination source (.returns sc dr)
      let s1 := { s with fs := fs1 }
      if fsExists fs1 source && ! fsExists fs1 destination then
        (true, s1)
      else
        rollback_from_backup env s1 source destination backup
  else
    rollback_from_backup env s source destination backup

/-- Restore-from-backup block of the exception handler around the main
`shutil.move` call: if a backup path was recorded and the file still exists,
copy it back over the source; a raising `copy2` is caught and only logged to
the console. -/
def exc_restore (ok : Bool) (s : VState) (source : FPath)
    (backup : Option FPath) : VState :=
  match backup with
  | some bp =>
    if fsExists s.fs bp && ok then
      { s with fs := fsSet s.fs source (fsGet s.fs bp) }
    else s
  | none => s

/-- Backup-cleanup block after a fully verified move: delete the backup file
if it was recorded and still exists; a raising `unlink` is caught and only
logged as a console warning, changing nothing else. -/
def cleanup_backup (ok : Bool) (s : VState) (backup : Option FPath) : VState :=
  match backup with
  | some bp =>
    if fsExists s.fs bp && ok then
      { s with fs := fsDel s.fs bp }
    else s
  | none => s

/-- Embedding of `move_with_verification`: pre-flight checks, optional backup, checksum
capture, the move itself, mandatory verification, rollback on verification
failure; returns the boolean the Python returns, paired with the final
state. -/
def move_with_verification (hash : Content → Nat) (env : Env) (s : VState)
    (source destination : FPath) (create_backup_flag : Bool) :
    Bool × VState :=
  if ¬ fsExists s.fs source then
    let s1 := log_error s "source_not_found"
    let s2 := log_operation s1 false source destination
      (some "Source file does not exist")
    (false, s2)
  else if fsExists s.fs destination then
    let s1 := log_error s "destination_exists"
    let s2 := log_operation s1 false source destination
      (some "Destination already exists")
    (false, s2)
  else
    let bk := if create_backup_flag && s.enable_rollback then
        create_backup env s source
      else (s, none)
    let s1 := bk.1
    let backup := bk.2
    let source_checksum := hash (fsGet s.fs source)
    match env.moveRes with
    | .raises =>
      let s2 := log_error s1 "move_exception"
      let s3 := log_operation s2 false source destination
        (some "Move operation failed")
      let s4 := exc_restore env.restoreOk s3 source backup
      (false, s4)
    | .returns dc sr =>
      let s2 := { s1 with fs := applyMove s1.fs source destination (.returns dc sr) }
      let v := verify_file_operation hash s2 source destination source_checksum
      if v.1 then
        let s4 := log_operation v.2 true source destination none
        let s5 := cleanup_backup env.cleanupUnlinkOk s4 backup
        (true, s5)
      else
        let s4 := log_operation v.2 false source destination
          (some "Verification failed")
        let s5 := if s.enable_rollback then
            (perform_rollback env s4 source destination backup).2
          else s4
        (false, s5)

/-- One call in a sequence of moves on a single verifier instance. -/
structure MoveCall where
  env : Env
  source : FPath
  destination : FPath
  create_backup_flag : Bool

/-- Run a sequence of `move_with_verification` calls on one instance. -/
def runMoves (hash : Content → Nat) (s : VState) : List MoveCall → VState
  | [] => s
  | c :: rest =>
    runMoves hash
      (move_with_verification hash c.env s c.source c.destination
        c.create_backup_flag).2 rest

/-- Summary block of `get_verification_report` (success_rate as an exact
rational; the Python computes the same ratio in floating point, guarded by
`if total_operations > 0`). -/
structure ReportSummary where
  total_operations : Nat
  successful : Nat
  failed : Nat
  success_rate : ℚ
  total_errors : Nat
  verification_failure_count : Nat
deriving DecidableEq, Repr

/-- Embedding of `get_verification_report` (its summary block). -/
def get_verification_report (s : VState) : ReportSummary :=
  let total := s.operation_log.length
  let succ := (s.operation_log.filter (fun op => op.success)).length
  { total_operations := total
    successful := succ
    failed := total - succ
    success_rate := if total > 0 then (succ : ℚ) / (total : ℚ) * 100 else 0
    total_errors := s.error_log.length
    verification_failure_count := s.verification_failures.length }

/-! ### Concrete instances used by witnesses and counterexamples -/

/-- Concrete checksum function for the closed instances. -/
def hashDemo : Content → Nat := fun c => c.foldl (fun a b => a * 31 + b + 1) 7

/-- Filesystem with one two-byte file at "a". -/
def fsDemo : FS := fun p => if p = "a" then some [1, 2] else none

/-- Fresh verifier on `fsDemo`, rollback enabled. -/
def stDemo : VState := ⟨fsDemo, [], [], [], true⟩

/-- Fully honest environment for moving the file of `fsDemo`. -/
def envHonest : Env :=
  ⟨true, .returns (some [1, 2]) true, .returns none false, true, true, true⟩

/-- Environment in which the main move reports success but leaves a 0-byte
destination; every other primitive is honest (the rollback move-back
honestly moves the 0-byte file back). -/
def envEmptyDest : Env :=
  ⟨true, .returns (some []) true, .returns (some []) true, true, true, true⟩

/-- Filesystem with only the destination path "b" occupied. -/
def fsDestOnly : FS := fun p => if p = "b" then some [5] else none

/-- Fresh verifier on `fsDestOnly`. -/
def stDestOnly : VState := ⟨fsDestOnly, [], [], [], true⟩

/-- Filesystem with a zero-byte file at "a". -/
def fsEmptySrc : FS := fun p => if p = "a" then some [] else none

/-- Fresh verifier on `fsEmptySrc`. -/
def stEmptySrc : VState := ⟨fsEmptySrc, [], [], [], true⟩

/-- Filesystem with a zero-byte file at "b" only. -/
def fsEmptyDst : FS := fun p => if p = "b" then some [] else none

/-- Fresh verifier on `fsEmptyDst`. -/
def stEmptyDst : VState := ⟨fsEmptyDst, [], [], [], true⟩

/-- Empty filesystem. -/
def fsNone : FS := fun _ => none

/-- Fresh verifier on the empty filesystem. -/
def stNone : VState := ⟨fsNone, [], [], [], true⟩

/-- Filesystem where both "a" and "b" exist with different content. -/
def fsBoth : FS :=
  fun p => if p = "a" then some [1] else if p = "b" then some [2] else none

/-- Fresh verifier on `fsBoth`. -/
def stBoth : VState := ⟨fsBoth, [], [], [], true⟩

/-! ### Basic lemmas about the filesystem model -/

@[simp]
lemma fsExists_fsSet_self (fs : FS) (p : FPath) (c : Content) :
    fsExists (fsSet fs p c) p = true := by
  simp [fsExists, fsSet]

lemma fsExists_fsSet_ne (fs : FS) (p q : FPath) (c : Content) (h : q ≠ p) :
    fsExists (fsSet fs p c) q = fsExists fs q := by
  simp [fsExists, fsSet, Function.update_noteq h]

@[simp]
lemma fsExists_fsDel_self (fs : FS) (p : FPath) :
    fsExists (fsDel fs p) p = false := by
  simp [fsExists, fsDel]

lemma fsExists_fsDel_ne (fs : FS) (p q : FPath) (h : q ≠ p) :
    fsExists (fsDel fs p) q = fsExists fs q := by
  simp [fsExists, fsDel, Function.update_noteq h]

@[simp]
lemma fsGet_fsSet_self (fs : FS) (p : FPath) (c : Content) :
    fsGet (fsSet fs p c) p = c := by
  simp [fsGet, fsSet]

lemma fsGet_fsSet_ne (fs : FS) (p q : FPath) (c : Content) (h : q ≠ p) :
    fsGet (fsSet fs p c) q = fsGet fs q := by
  simp [fsGet, fsSet, Function.update_noteq h]

lemma fsGet_fsDel_ne (fs : FS) (p q : FPath) (h : q ≠ p) :
    fsGet (fsDel fs p) q = fsGet fs q := by
  simp [fsGet, fsDel, Function.update_noteq h]

lemma backupPathOf_ne (p : FPath) : backupPathOf p ≠ p := by
  intro h
  have h2 := congrArg String.length h
  rw [backupPathOf, String.length_append, String.length_append] at h2
  have e1 : (".backlog_backups/" : String).length = 17 := rfl
  have e2 : (".backup" : String).length = 7 := rfl
  omega

lemma ne_of_fsExists_ne (fs : FS) (p q : FPath)
    (hp : fsExists fs p = true) (hq : fsExists fs q = false) : p ≠ q := by
  intro h
  rw [h, hq] at hp
  simp at hp

lemma applyMove_ne (fs : FS) (src dst q : FPath) (r : MoveRes)
    (h1 : q ≠ src) (h2 : q ≠ dst) : applyMove fs src dst r q = fs q := by
  cases r with
  | raises => rfl
  | returns dc sr =>
    cases dc with
    | none =>
      simp only [applyMove]
      cases sr with
      | true => simp [fsDel, Function.update_noteq h1]
      | false => rfl
    | some c =>
      simp only [applyMove]
      cases sr with
      | true => simp [fsSet, fsDel, Function.update_noteq h1, Function.update_noteq h2]
      | false => simp [fsSet, Function.update_noteq h2]

/-! ### Structural lemmas about the logging operations -/

@[simp]
lemma log_operation_fs (s : VState) (b : Bool) (a d : FPath) (e : Option String) :
    (log_operation s b a d e).fs = s.fs := rfl

@[simp]
lemma log_operation_oplog (s : VState) (b : Bool) (a d : FPath) (e : Option String) :
    (log_operation s b a d e).operation_log = s.operation_log ++ [⟨b, a, d, e⟩] := rfl

@[simp]
lemma log_operation_errlog (s : VState) (b : Bool) (a d : FPath) (e : Option String) :
    (log_operation s b a d e).error_log = s.error_log := rfl

@[simp]
lemma log_operation_vfails (s : VState) (b : Bool) (a d : FPath) (e : Option String) :
    (log_operation s b a d e).verification_failures = s.verification_failures := rfl

@[simp]
lemma log_error_fs (s : VState) (t : String) : (log_error s t).fs = s.fs := rfl

@[simp]
lemma log_error_oplog (s : VState) (t : String) :
    (log_error s t).operation_log = s.operation_log := rfl

@[simp]
lemma log_error_errlog (s : VState) (t : String) :
    (log_error s t).error_log = s.error_log ++ [⟨t⟩] := rfl

@[simp]
lemma log_error_vfails (s : VState) (t : String) :
    (log_error s t).verification_failures = s.verification_failures := rfl

@[simp]
lemma log_verification_failure_fs (s : VState) (e : VerifyErr) (a d : FPath) :
    (log_verification_failure s e a d).fs = s.fs := rfl

@[simp]
lemma log_verification_failure_oplog (s : VState) (e : VerifyErr) (a d : FPath) :
    (log_verification_failure s e a d).operation_log = s.operation_log := rfl

@[simp]
lemma log_verification_failure_errlog (s : VState) (e : VerifyErr) (a d : FPath) :
    (log_verification_failure s e a d).error_log = s.error_log := rfl

@[simp]
lemma log_verification_failure_vfails (s : VState) (e : VerifyErr) (a d : FPath) :
    (log_verification_failure s e a d).verification_failures
      = s.verification_failures ++ [⟨e, a, d⟩] := rfl

/-! ### Lemmas about `create_backup` -/

@[simp]
lemma create_backup_oplog (env : Env) (s : VState) (src : FPath) :
    ((create_backup env s src).1).operation_log = s.operation_log := by
  unfold create_backup
  split <;> rfl

@[simp]
lemma create_backup_errlog (env : Env) (s : VState) (src : FPath) :
    ((create_backup env s src).1).error_log = s.error_log := by
  unfold create_backup
  split <;> rfl

@[simp]
lemma create_backup_vfails (env : Env) (s : VState) (src : FPath) :
    ((create_backup env s src).1).verification_failures = s.verification_failures := by
  unfold create_backup
  split <;> rfl

lemma create_backup_snd (env : Env) (s : VState) (src : FPath) :
    (create_backup env s src).2 = none ∨
      (create_backup env s src).2 = some (backupPathOf src) := by
  unfold create_backup
  split
  · exact Or.inr rfl
  · exact Or.inl rfl

lemma create_backup_of_ok (env : Env) (s : VState) (src : FPath)
    (h : env.backupOk = true) :
    create_backup env s src =
      ({ s with fs := fsSet s.fs (backupPathOf src) (fsGet s.fs src) },
        some (backupPathOf src)) := by
  unfold create_backup
  rw [h]
  simp

/-! ### Lemmas about `verify_file_operation` -/

lemma verify_file_operation_fs (hash : Content → Nat) (s : VState)
    (a b : FPath) (e : Nat) :
    ((verify_file_operation hash s a b e).2).fs = s.fs := by
  unfold verify_file_operation
  split_ifs <;> rfl

lemma verify_file_operation_oplog (hash : Content → Nat) (s : VState)
    (a b : FPath) (e : Nat) :
    ((verify_file_operation hash s a b e).2).operation_log = s.operation_log := by
  unfold verify_file_operation
  split_ifs <;> rfl

lemma verify_file_operation_errlog (hash : Content → Nat) (s : VState)
    (a b : FPath) (e : Nat) :
    ((verify_file_operation hash s a b e).2).error_log = s.error_log := by
  unfold verify_file_operation
  split_ifs <;> rfl

lemma verify_file_operation_enable (hash : Content → Nat) (s : VState)
    (a b : FPath) (e : Nat) :
    ((verify_file_operation hash s a b e).2).enable_rollback = s.enable_rollback := by
  unfold verify_file_operation
  split_ifs <;> rfl

lemma verify_file_operation_true_iff (hash : Content → Nat) (s : VState)
    (a b : FPath) (e : Nat) :
    (verify_file_operation hash s a b e).1 = true ↔
      fsExists s.fs b = true ∧ fsExists s.fs a = false ∧
      (fsGet s.fs b).length ≠ 0 ∧ hash (fsGet s.fs b) = e := by
  unfold verify_file_operation
  split_ifs with h1 h2 h3 h4 <;> simp_all

lemma verify_file_operation_true_snd (hash : Content → Nat) (s : VState)
    (a b : FPath) (e : Nat)
    (h : (verify_file_operation hash s a b e).1 = true) :
    (verify_file_operation hash s a b e).2 = s := by
  unfold verify_file_operation at h ⊢
  split_ifs at h ⊢
  simp_all

lemma verify_file_operation_false_vfails (hash : Content → Nat) (s : VState)
    (a b : FPath) (e : Nat)
    (h : (verify_file_operation hash s a b e).1 = false) :
    ((verify_file_operation hash s a b e).2).verification_failures.length
      = s.verification_failures.length + 1 := by
  unfold verify_file_operation at h ⊢
  split_ifs at h ⊢ <;> simp_all

/-- The size check fires exactly as written: an existing, zero-length
destination with the source gone makes the MOVE verification fail with the
destEmpty record, whatever the expected checksum. -/
lemma verify_file_operation_destEmpty (hash : Content → Nat) (s : VState)
    (a b : FPath) (e : Nat)
    (h1 : fsExists s.fs b = true) (h2 : fsExists s.fs a = false)
    (h3 : (fsGet s.fs b).length = 0) :
    verify_file_operation hash s a b e =
      (false, log_verification_failure s .destEmpty a b) := by
  unfold verify_file_operation
  rw [h1, h2]
  simp [h3]


/-! ### Lemmas about the rollback path -/

lemma rollback_from_backup_oplog (env : Env) (s : VState)
    (a b : FPath) (bk : Option FPath) :
    ((rollback_from_backup env s a b bk).2).operation_log = s.operation_log := by
  cases bk with
  | none => rfl
  | some bp =>
    simp only [rollback_from_backup]
    split_ifs <;> rfl

lemma rollback_from_backup_vfails (env : Env) (s : VState)
    (a b : FPath) (bk : Option FPath) :
    ((rollback_from_backup env s a b bk).2).verification_failures
      = s.verification_failures := by
  cases bk with
  | none => rfl
  | some bp =>
    simp only [rollback_from_backup]
    split_ifs <;> rfl

lemma rollback_from_backup_errlog_le (env : Env) (s : VState)
    (a b : FPath) (bk : Option FPath) :
    s.error_log.length ≤ ((rollback_from_backup env s a b bk).2).error_log.length := by
  cases bk with
  | none => exact Nat.le_refl _
  | some bp =>
    simp only [rollback_from_backup]
    split_ifs <;> simp

lemma rollback_from_backup_enable (env : Env) (s : VState)
    (a b : FPath) (bk : Option FPath) :
    ((rollback_from_backup env s a b bk).2).enable_rollback = s.enable_rollback := by
  cases bk with
  | none => rfl
  | some bp =>
    simp only [rollback_from_backup]
    split_ifs <;> rfl

lemma perform_rollback_oplog (env : Env) (s : VState)
    (a b : FPath) (bk : Option FPath) :
    ((perform_rollback env s a b bk).2).operation_log = s.operation_log := by
  cases hr : env.rbMoveRes with
  | raises =>
    simp only [perform_rollback, hr]
    split_ifs
    · rfl
    · exact rollback_from_backup_oplog ..
  | returns sc dr =>
    simp only [perform_rollback, hr]
    split_ifs
    · rfl
    · exact rollback_from_backup_oplog env
        { s with fs := applyMove s.fs b a (MoveRes.returns sc dr) } a b bk
    · exact rollback_from_backup_oplog ..

lemma perform_rollback_vfails (env : Env) (s : VState)
    (a b : FPath) (bk : Option FPath) :
    ((perform_rollback env s a b bk).2).verification_failures
      = s.verification_failures := by
  cases hr : env.rbMoveRes with
  | raises =>
    simp only [perform_rollback, hr]
    split_ifs
    · rfl
    · exact rollback_from_backup_vfails ..
  | returns sc dr =>
    simp only [perform_rollback, hr]
    split_ifs
    · rfl
    · exact rollback_from_backup_vfails env
        { s with fs := applyMove s.fs b a (MoveRes.returns sc dr) } a b bk
    · exact rollback_from_backup_vfails ..

lemma perform_rollback_errlog_le (env : Env) (s : VState)
    (a b : FPath) (bk : Option FPath) :
    s.error_log.length ≤ ((perform_rollback env s a b bk).2).error_log.length := by
  cases hr : env.rbMoveRes with
  | raises =>
    simp only [perform_rollback, hr]
    split_ifs
    · simp
    · exact rollback_from_backup_errlog_le ..
  | returns sc dr =>
    simp only [perform_rollback, hr]
    split_ifs
    · exact Nat.le_refl _
    · exact rollback_from_backup_errlog_le env
        { s with fs := applyMove s.fs b a (MoveRes.returns sc dr) } a b bk
    · exact rollback_from_backup_errlog_le ..

/-- The backup-restore half of the rollback is safe when a backup file is
actually present: it either leaves the source existing or records a
rollback_failed error. -/
lemma rollback_from_backup_safe (env : Env) (s : VState)
    (source destination bp : FPath)
    (hbp : fsExists s.fs bp = true) (hsd : source ≠ destination) :
    fsExists ((rollback_from_backup env s source destination (some bp)).2).fs source = true ∨
      ErrEntry.mk "rollback_failed" ∈
        ((rollback_from_backup env s source destination (some bp)).2).error_log := by
  simp only [rollback_from_backup]
  rw [hbp]
  simp only [if_true]
  split_ifs with h1 h2 h3
  · left
    rw [fsExists_fsDel_ne _ _ _ hsd]
    simp
  · right
    simp
  · left
    simp
  · right
    simp

/-- The full rollback is safe when a backup file is actually present: the
final state has the source existing, or a rollback_failed error was
recorded. -/
lemma perform_rollback_safe (env : Env) (s : VState)
    (source destination bp : FPath)
    (hbp : fsExists s.fs bp = true) (hbs : bp ≠ source) (hbd : bp ≠ destination)
    (hsd : source ≠ destination) :
    fsExists ((perform_rollback env s source destination (some bp)).2).fs source = true ∨
      ErrEntry.mk "rollback_failed" ∈
        ((perform_rollback env s source destination (some bp)).2).error_log := by
  cases hr : env.rbMoveRes with
  | raises =>
    simp only [perform_rollback, hr]
    split_ifs with h1
    · right
      simp
    · exact rollback_from_backup_safe env s source destination bp hbp hsd
  | returns sc dr =>
    simp only [perform_rollback, hr]
    split_ifs with h1 h2
    · left
      exact (Bool.and_eq_true _ _ |>.mp h2).1
    · have hbp1 : fsExists (applyMove s.fs destination source (MoveRes.returns sc dr)) bp = true := by
        have := applyMove_ne s.fs destination source bp (MoveRes.returns sc dr) hbd hbs
        unfold fsExists
        rw [this]
        exact hbp
      exact rollback_from_backup_safe env
        { s with fs := applyMove s.fs destination source (MoveRes.returns sc dr) }
        source destination bp hbp1 hsd
    · exact rollback_from_backup_safe env s source destination bp hbp hsd

/-! ### Lemmas about `exc_restore` and `cleanup_backup` -/

@[simp]
lemma exc_restore_oplog (ok : Bool) (s : VState) (source : FPath)
    (backup : Option FPath) :
    (exc_restore ok s source backup).operation_log = s.operation_log := by
  cases backup with
  | none => rfl
  | some bp =>
    simp only [exc_restore]
    split_ifs <;> rfl

@[simp]
lemma exc_restore_errlog (ok : Bool) (s : VState) (source : FPath)
    (backup : Option FPath) :
    (exc_restore ok s source backup).error_log = s.error_log := by
  cases backup with
  | none => rfl
  | some bp =>
    simp only [exc_restore]
    split_ifs <;> rfl

@[simp]
lemma exc_restore_vfails (ok : Bool) (s : VState) (source : FPath)
    (backup : Option FPath) :
    (exc_restore ok s source backup).verification_failures
      = s.verification_failures := by
  cases backup with
  | none => rfl
  | some bp =>
    simp only [exc_restore]
    split_ifs <;> rfl

@[simp]
lemma cleanup_backup_oplog (ok : Bool) (s : VState) (backup : Option FPath) :
    (cleanup_backup ok s backup).operation_log = s.operation_log := by
  cases backup with
  | none => rfl
  | some bp =>
    simp only [cleanup_backup]
    split_ifs <;> rfl

@[simp]
lemma cleanup_backup_errlog (ok : Bool) (s : VState) (backup : Option FPath) :
    (cleanup_backup ok s backup).error_log = s.error_log := by
  cases backup with
  | none => rfl
  | some bp =>
    simp only [cleanup_backup]
    split_ifs <;> rfl

@[simp]
lemma cleanup_backup_vfails (ok : Bool) (s : VState) (backup : Option FPath) :
    (cleanup_backup ok s backup).verification_failures
      = s.verification_failures := by
  cases backup with
  | none => rfl
  | some bp =>
    simp only [cleanup_backup]
    split_ifs <;> rfl

/-- Backup cleanup only ever touches the backup path. -/
lemma cleanup_backup_fs_ne (ok : Bool) (s : VState) (bp p : FPath)
    (h : p ≠ bp) :
    (cleanup_backup ok s (some bp)).fs p = s.fs p := by
  simp only [cleanup_backup]
  split_ifs
  · simp [fsDel, Function.update_noteq h]
  · rfl

@[simp]
lemma cleanup_backup_none (ok : Bool) (s : VState) :
    cleanup_backup ok s none = s := rfl

@[simp]
lemma exc_restore_none (ok : Bool) (s : VState) (source : FPath) :
    exc_restore ok s source none = s := rfl

/-! ### Lemmas about `move_with_verification` -/

/-- Every call, whatever its outcome and environment, appends exactly one
audit record. -/
lemma move_oplog_len (hash : Content → Nat) (env : Env) (s : VState)
    (source destination : FPath) (cb : Bool) :
    ((move_with_verification hash env s source destination cb).2).operation_log.length
      = s.operation_log.length + 1 := by
  cases hb : env.backupOk <;> cases hm : env.moveRes <;>
    simp only [move_with_verification, hm, create_backup, hb] <;>
    split_ifs <;>
    simp_all [perform_rollback_oplog, verify_file_operation_oplog]

/-- Success is only ever reported after the re-stat verification passed, so
in the final state the source is gone, the destination exists, and the
destination checksum equals the pre-move source checksum.  The hypothesis
keeps the caller-chosen destination out of the backup namespace (in the
script the backup name also carries a timestamp). -/
lemma move_success_spec (hash : Content → Nat) (env : Env) (s : VState)
    (source destination : FPath) (cb : Bool)
    (hbd : backupPathOf source ≠ destination)
    (h : (move_with_verification hash env s source destination cb).1 = true) :
    fsExists ((move_with_verification hash env s source destination cb).2).fs source = false ∧
    fsExists ((move_with_verification hash env s source destination cb).2).fs destination = true ∧
    hash (fsGet ((move_with_verification hash env s source destination cb).2).fs destination)
      = hash (fsGet s.fs source) := by
  have hne1 : source ≠ backupPathOf source := (backupPathOf_ne source).symm
  have hne2 : destination ≠ backupPathOf source := hbd.symm
  cases hb : env.backupOk <;> cases hm : env.moveRes <;>
    simp only [move_with_verification, hm, create_backup, hb] at h ⊢ <;>
    split_ifs at h ⊢ <;>
    simp_all [verify_file_operation_true_iff, verify_file_operation_true_snd,
      cleanup_backup_fs_ne, fsExists, fsGet]

/-- A rollback never erases error-log or verification-failure entries. -/
lemma perform_rollback_sum_ge (env : Env) (s : VState)
    (a b : FPath) (bk : Option FPath) :
    s.error_log.length + s.verification_failures.length ≤
      ((perform_rollback env s a b bk).2).error_log.length
        + ((perform_rollback env s a b bk).2).verification_failures.length := by
  have h1 := perform_rollback_errlog_le env s a b bk
  have h2 := congrArg List.length (perform_rollback_vfails env s a b bk)
  omega

/-- Pre-flight failure on a missing source: nothing happens except the two
log appends, and the call returns False. -/
lemma move_source_missing_eq (hash : Content → Nat) (env : Env) (s : VState)
    (source destination : FPath) (cb : Bool)
    (hs : fsExists s.fs source = false) :
    move_with_verification hash env s source destination cb =
      (false, log_operation (log_error s "source_not_found") false source
        destination (some "Source file does not exist")) := by
  simp [move_with_verification, hs]

/-- Pre-flight failure on an existing destination: nothing happens except
the two log appends, and the call returns False. -/
lemma move_dest_exists_eq (hash : Content → Nat) (env : Env) (s : VState)
    (source destination : FPath) (cb : Bool)
    (hs : fsExists s.fs source = true)
    (hd : fsExists s.fs destination = true) :
    move_with_verification hash env s source destination cb =
      (false, log_operation (log_error s "destination_exists") false source
        destination (some "Destination already exists")) := by
  simp [move_with_verification, hs, hd]

/-- Every failing call appends an audit record marked unsuccessful and
carrying an error detail. -/
lemma move_failure_record (hash : Content → Nat) (env : Env) (s : VState)
    (source destination : FPath) (cb : Bool)
    (h : (move_with_verification hash env s source destination cb).1 = false) :
    ∃ rec : OpRecord,
      ((move_with_verification hash env s source destination cb).2).operation_log
        = s.operation_log ++ [rec] ∧
      rec.success = false ∧ rec.errorDetail.isSome = true := by
  cases hb : env.backupOk <;> cases hm : env.moveRes <;>
    simp only [move_with_verification, hm, create_backup, hb] at h ⊢ <;>
    split_ifs at h ⊢ <;>
    simp_all [perform_rollback_oplog, verify_file_operation_oplog]

/-- Every failing call strictly grows the combined error-log and
verification-failure record count: the categorized reason is recorded. -/
lemma move_failure_reason (hash : Content → Nat) (env : Env) (s : VState)
    (source destination : FPath) (cb : Bool)
    (h : (move_with_verification hash env s source destination cb).1 = false) :
    s.error_log.length + s.verification_failures.length <
      ((move_with_verification hash env s source destination cb).2).error_log.length
        + ((move_with_verification hash env s source destination cb).2).verification_failures.length := by
  cases hb : env.backupOk <;> cases hm : env.moveRes <;>
    simp only [move_with_verification, hm, create_backup, hb] at h ⊢ <;>
    split_ifs at h ⊢ <;>
    first
      | (simp_all
         ; done)
      | (simp_all [verify_file_operation_errlog, verify_file_operation_false_vfails]
         ; done)
      | (refine lt_of_lt_of_le ?_ (perform_rollback_sum_ge ..)
         ; simp_all [verify_file_operation_errlog, verify_file_operation_false_vfails])

@[simp]
lemma cleanup_backup_not_ok (s : VState) (backup : Option FPath) :
    cleanup_backup false s backup = s := by
  cases backup with
  | none => rfl
  | some bp => simp [cleanup_backup]

/-- The returned boolean never depends on whether the backup-cleanup unlink
succeeds. -/
lemma move_fst_cleanup_indep (hash : Content → Nat) (s : VState)
    (source destination : FPath) (cb : Bool)
    (bo : Bool) (mr rmr : MoveRes) (ro ru cu b : Bool) :
    (move_with_verification hash ⟨bo, mr, rmr, ro, ru, b⟩ s source destination cb).1
      = (move_with_verification hash ⟨bo, mr, rmr, ro, ru, cu⟩ s source destination cb).1 := by
  cases bo <;> cases mr <;>
    simp only [move_with_verification, create_backup] <;>
    split_ifs <;> simp_all

/-- When cleanup of the backup fails after a verified move, the backup file
is still on disk at the end. -/
lemma move_success_backup_remains (hash : Content → Nat) (env : Env)
    (s : VState) (source destination : FPath)
    (hbd : backupPathOf source ≠ destination)
    (her : s.enable_rollback = true) (hbo : env.backupOk = true)
    (hcu : env.cleanupUnlinkOk = false)
    (h : (move_with_verification hash env s source destination true).1 = true) :
    fsExists ((move_with_verification hash env s source destination true).2).fs
      (backupPathOf source) = true := by
  have hbs : backupPathOf source ≠ source := backupPathOf_ne source
  cases hm : env.moveRes <;>
    simp only [move_with_verification, hm, create_backup, hbo, her, hcu] at h ⊢ <;>
    split_ifs at h ⊢ <;>
    simp_all [fsExists, verify_file_operation_fs, applyMove_ne _ _ _ _ _ hbs hbd,
      fsSet]

/-- If the main move call returned normally, verification then failed, and a
backup was taken (rollback enabled, backup flag on, copy succeeded), the
final state still has the source file present, or a rollback_failed error
was recorded. -/
lemma move_verify_fail_rollback_safe (hash : Content → Nat) (env : Env)
    (s : VState) (source destination : FPath) (dc : Option Content) (sr : Bool)
    (her : s.enable_rollback = true) (hbo : env.backupOk = true)
    (hm : env.moveRes = MoveRes.returns dc sr)
    (hbd : backupPathOf source ≠ destination)
    (hs : fsExists s.fs source = true) (hd : fsExists s.fs destination = false)
    (h : (move_with_verification hash env s source destination true).1 = false) :
    fsExists ((move_with_verification hash env s source destination true).2).fs source = true ∨
      ErrEntry.mk "rollback_failed" ∈
        ((move_with_verification hash env s source destination true).2).error_log := by
  have hsd : source ≠ destination := ne_of_fsExists_ne s.fs source destination hs hd
  have hbs : backupPathOf source ≠ source := backupPathOf_ne source
  simp only [move_with_verification, hm, create_backup, hbo, her, hs, hd,
    Bool.true_and, Bool.and_self, not_true, Bool.false_eq_true, if_false,
    ite_true, ite_false, Bool.true_eq_false, not_false_iff, if_true] at h ⊢
  split_ifs at h ⊢ with hv
  refine perform_rollback_safe env _ source destination _ ?_ hbs hbd hsd
  simp [fsExists, verify_file_operation_fs, applyMove_ne _ _ _ _ _ hbs hbd,
    fsSet]

/-! ### Claim theorems -/

/-- C2: if `move_with_verification` reports success then in the final
(re-read) filesystem state the source no longer exists and the destination
exists — both together, for every environment, i.e. even when the underlying
move call misbehaved; success is never derived from the move call alone.
The path hypothesis keeps the destination distinct from the (timestamped in
the script) backup file name. -/
theorem C2_move_exclusivity (hash : Content → Nat) (env : Env) (s : VState)
    (source destination : FPath) (cb : Bool)
    (hbd : backupPathOf source ≠ destination)
    (h : (move_with_verification hash env s source destination cb).1 = true) :
    fsExists ((move_with_verification hash env s source destination cb).2).fs source = false ∧
    fsExists ((move_with_verification hash env s source destination cb).2).fs destination = true :=
  ⟨(move_success_spec hash env s source destination cb hbd h).1,
    (move_success_spec hash env s source destination cb hbd h).2.1⟩

/-- Witness for C2 at a concrete successful move. -/
theorem C2_move_exclusivity_witness :
    backupPathOf "a" ≠ "b" ∧
    (move_with_verification hashDemo envHonest stDemo "a" "b" true).1 = true ∧
    (fsExists ((move_with_verification hashDemo envHonest stDemo "a" "b" true).2).fs "a" = false ∧
     fsExists ((move_with_verification hashDemo envHonest stDemo "a" "b" true).2).fs "b" = true) :=
  ⟨by decide, by decide,
    C2_move_exclusivity hashDemo envHonest stDemo "a" "b" true (by decide) (by decide)⟩

/-- C3: if `move_with_verification` reports success, the checksum of the
destination content in the final state equals the checksum of the source
content captured before the move, for every checksum function and every
environment. -/
theorem C3_move_checksum (hash : Content → Nat) (env : Env) (s : VState)
    (source destination : FPath) (cb : Bool)
    (hbd : backupPathOf source ≠ destination)
    (h : (move_with_verification hash env s source destination cb).1 = true) :
    hash (fsGet ((move_with_verification hash env s source destination cb).2).fs destination)
      = hash (fsGet s.fs source) :=
  (move_success_spec hash env s source destination cb hbd h).2.2

/-- Witness for C3 at a concrete successful move. -/
theorem C3_move_checksum_witness :
    backupPathOf "a" ≠ "b" ∧
    (move_with_verification hashDemo envHonest stDemo "a" "b" true).1 = true ∧
    hashDemo (fsGet ((move_with_verification hashDemo envHonest stDemo "a" "b" true).2).fs "b")
      = hashDemo (fsGet stDemo.fs "a") :=
  ⟨by decide, by decide,
    C3_move_checksum hashDemo envHonest stDemo "a" "b" true (by decide) (by decide)⟩

/-- C5: a sequence of N calls on one verifier instance appends exactly N
audit records, regardless of each call's outcome or environment. -/
theorem C5_audit_completeness (hash : Content → Nat) (s : VState)
    (calls : List MoveCall) :
    (runMoves hash s calls).operation_log.length
      = s.operation_log.length + calls.length := by
  induction calls generalizing s with
  | nil => simp [runMoves]
  | cons c rest ih =>
    simp only [runMoves]
    rw [ih, move_oplog_len]
    simp [List.length_cons]
    omega

/-- C8: a degenerate self-move request on an existing file hits the
destination-exists pre-flight check: the call fails, the filesystem is
completely untouched, and a destination_exists error is logged. -/
theorem C8_self_move_rejected (hash : Content → Nat) (env : Env) (s : VState)
    (p : FPath) (cb : Bool) (c : Content) (h : s.fs p = some c) :
    (move_with_verification hash env s p p cb).1 = false ∧
    ((move_with_verification hash env s p p cb).2).fs = s.fs ∧
    ((move_with_verification hash env s p p cb).2).error_log
      = s.error_log ++ [⟨"destination_exists"⟩] := by
  have hs : fsExists s.fs p = true := by simp [fsExists, h]
  rw [move_dest_exists_eq hash env s p p cb hs hs]
  simp

/-- Witness for C8 at a concrete self-move. -/
theorem C8_self_move_rejected_witness :
    stDemo.fs "a" = some [1, 2] ∧
    ((move_with_verification hashDemo envHonest stDemo "a" "a" true).1 = false ∧
     ((move_with_verification hashDemo envHonest stDemo "a" "a" true).2).fs = stDemo.fs ∧
     ((move_with_verification hashDemo envHonest stDemo "a" "a" true).2).error_log
       = stDemo.error_log ++ [⟨"destination_exists"⟩]) :=
  ⟨by decide,
    C8_self_move_rejected hashDemo envHonest stDemo "a" true [1, 2] (by decide)⟩

/-- C10: the report is total and its success rate is the guarded value: with
an empty operation log it reports zero operations and a success rate of 0
(no division is attempted). -/
theorem C10_report_guarded (s : VState) (h : s.operation_log = []) :
    (get_verification_report s).total_operations = 0 ∧
    (get_verification_report s).success_rate = 0 := by
  simp [get_verification_report, h]

/-- Witness for C10 on a fresh verifier. -/
theorem C10_report_guarded_witness :
    stNone.operation_log = [] ∧
    ((get_verification_report stNone).total_operations = 0 ∧
     (get_verification_report stNone).success_rate = 0) :=
  ⟨rfl, C10_report_guarded stNone rfl⟩

/-- C1 counterexample: a concrete run matching spec Scenario C (the main
move reports success but the destination is 0 bytes; all other primitives
honest, rollback enabled, backup taken).  Verification fails, the rollback
moves the 0-byte destination back, and the call returns: the source exists
but with the empty content instead of the original bytes, and no
rollback_failed error is recorded anywhere — so the claimed disjunction
(source restored with original content, or an explicit RollbackFailed) is
false on the code. -/
theorem C1_rollback_safety_counterexample :
    (move_with_verification hashDemo envEmptyDest stDemo "a" "b" true).1 = false ∧
    stDemo.fs "a" = some [1, 2] ∧
    ((move_with_verification hashDemo envEmptyDest stDemo "a" "b" true).2).fs "a" = some [] ∧
    ¬ ((move_with_verification hashDemo envEmptyDest stDemo "a" "b" true).2).fs "a" = some [1, 2] ∧
    ErrEntry.mk "rollback_failed" ∉
      ((move_with_verification hashDemo envEmptyDest stDemo "a" "b" true).2).error_log := by
  decide

/-- C1 (amended): with rollback enabled, the backup flag on and the backup
copy succeeding, whenever the main move call returns normally and the call
then reports failure (i.e. the mandatory verification failed), the final
state has the source path existing again — though not necessarily with its
original content, since the preferred rollback moves the possibly partial
destination back — or a rollback_failed error was recorded in the error log
(the boolean returned to the caller does not distinguish this case). -/
theorem C1_rollback_safety_amended (hash : Content → Nat) (env : Env)
    (s : VState) (source destination : FPath) (dc : Option Content) (sr : Bool)
    (her : s.enable_rollback = true) (hbo : env.backupOk = true)
    (hm : env.moveRes = MoveRes.returns dc sr)
    (hbd : backupPathOf source ≠ destination)
    (hs : fsExists s.fs source = true)
    (hd : fsExists s.fs destination = false)
    (h : (move_with_verification hash env s source destination true).1 = false) :
    fsExists ((move_with_verification hash env s source destination true).2).fs source = true ∨
      ErrEntry.mk "rollback_failed" ∈
        ((move_with_verification hash env s source destination true).2).error_log :=
  move_verify_fail_rollback_safe hash env s source destination dc sr her hbo hm hbd hs hd h

/-- Witness for the amended C1 at the Scenario C instance. -/
theorem C1_rollback_safety_amended_witness :
    stDemo.enable_rollback = true ∧
    envEmptyDest.backupOk = true ∧
    envEmptyDest.moveRes = MoveRes.returns (some []) true ∧
    backupPathOf "a" ≠ "b" ∧
    fsExists stDemo.fs "a" = true ∧
    fsExists stDemo.fs "b" = false ∧
    (move_with_verification hashDemo envEmptyDest stDemo "a" "b" true).1 = false ∧
    (fsExists ((move_with_verification hashDemo envEmptyDest stDemo "a" "b" true).2).fs "a" = true ∨
      ErrEntry.mk "rollback_failed" ∈
        ((move_with_verification hashDemo envEmptyDest stDemo "a" "b" true).2).error_log) :=
  ⟨by decide, by decide, by decide, by decide, by decide, by decide, by decide,
    C1_rollback_safety_amended hashDemo envEmptyDest stDemo "a" "b" (some []) true
      (by decide) (by decide) (by decide) (by decide) (by decide) (by decide) (by decide)⟩

/-- C4 counterexample: on a request whose destination exists but whose
source is missing, the call does not fail with DestinationExists: the
source check runs first, so the recorded failure is source_not_found and no
destination_exists error is logged. -/
theorem C4_preflight_counterexample :
    fsExists stDestOnly.fs "b" = true ∧
    (move_with_verification hashDemo envHonest stDestOnly "a" "b" true).1 = false ∧
    ((move_with_verification hashDemo envHonest stDestOnly "a" "b" true).2).error_log
      = [⟨"source_not_found"⟩] ∧
    ErrEntry.mk "destination_exists" ∉
      ((move_with_verification hashDemo envHonest stDestOnly "a" "b" true).2).error_log := by
  decide

/-- C4 (amended): pre-flight checks fail fast with no filesystem effect:
a request with a missing source always fails with source_not_found (even if
the destination also exists — the source check runs first); a request whose
source exists and whose destination already exists always fails with
destination_exists; in both cases the call performs no mutation and only
appends the error and audit records. -/
theorem C4_preflight_amended (hash : Content → Nat) (env : Env) (s : VState)
    (source destination : FPath) (cb : Bool) :
    (fsExists s.fs source = false →
      move_with_verification hash env s source destination cb =
        (false, log_operation (log_error s "source_not_found") false source
          destination (some "Source file does not exist"))) ∧
    (fsExists s.fs source = true → fsExists s.fs destination = true →
      move_with_verification hash env s source destination cb =
        (false, log_operation (log_error s "destination_exists") false source
          destination (some "Destination already exists"))) ∧
    (fsExists s.fs source = false ∨ fsExists s.fs destination = true →
      ((move_with_verification hash env s source destination cb).2).fs = s.fs) := by
  refine ⟨fun hs => move_source_missing_eq hash env s source destination cb hs,
    fun hs hd => move_dest_exists_eq hash env s source destination cb hs hd,
    fun hor => ?_⟩
  by_cases hs : fsExists s.fs source = true
  · rcases hor with hor | hor
    · rw [hs] at hor
      exact absurd hor (by simp)
    · rw [move_dest_exists_eq hash env s source destination cb hs hor]
      rfl
  · have hs2 : fsExists s.fs source = false := by
      simpa using hs
    rw [move_source_missing_eq hash env s source destination cb hs2]
    rfl

/-- Witness for the amended C4 at the two concrete pre-flight failures. -/
theorem C4_preflight_amended_witness :
    fsExists stNone.fs "a" = false ∧
    move_with_verification hashDemo envHonest stNone "a" "b" true =
      (false, log_operation (log_error stNone "source_not_found") false "a" "b"
        (some "Source file does not exist")) ∧
    fsExists stBoth.fs "a" = true ∧
    fsExists stBoth.fs "b" = true ∧
    move_with_verification hashDemo envHonest stBoth "a" "b" true =
      (false, log_operation (log_error stBoth "destination_exists") false "a" "b"
        (some "Destination already exists")) :=
  ⟨by decide,
    (C4_preflight_amended hashDemo envHonest stNone "a" "b" true).1 (by decide),
    by decide, by decide,
    (C4_preflight_amended hashDemo envHonest stBoth "a" "b" true).2.1 (by decide) (by decide)⟩

/-- C6 counterexample: an entirely honest move of a zero-byte source (the
destination is also zero bytes, exactly as the move should leave it) is
failed by the size condition: the code checks only that the destination is
0 bytes and never compares against the captured source size, so the claimed
exemption for zero-byte sources does not exist. -/
theorem C6_size_check_counterexample :
    (move_with_verification hashDemo envEmptyDest stEmptySrc "a" "b" true).1 = false ∧
    ((move_with_verification hashDemo envEmptyDest stEmptySrc "a" "b" true).2).verification_failures
      = [⟨.destEmpty, "a", "b"⟩] := by
  decide

/-- C6 (amended): the size condition of the post-move verification fires
whenever the destination exists with size zero and the source is gone,
regardless of the captured source size (so in particular when the source
size was non-zero, but also when it was zero): the verification returns
False and records the destEmpty failure. -/
theorem C6_size_check_amended (hash : Content → Nat) (s : VState)
    (source destination : FPath) (expected : Nat)
    (h1 : fsExists s.fs destination = true)
    (h2 : fsExists s.fs source = false)
    (h3 : (fsGet s.fs destination).length = 0) :
    (verify_file_operation hash s source destination expected).1 = false ∧
    ((verify_file_operation hash s source destination expected).2).verification_failures
      = s.verification_failures ++ [⟨.destEmpty, source, destination⟩] := by
  rw [verify_file_operation_destEmpty hash s source destination expected h1 h2 h3]
  simp

/-- Witness for the amended C6 at a concrete zero-byte destination. -/
theorem C6_size_check_amended_witness :
    fsExists stEmptyDst.fs "b" = true ∧
    fsExists stEmptyDst.fs "a" = false ∧
    (fsGet stEmptyDst.fs "b").length = 0 ∧
    ((verify_file_operation hashDemo stEmptyDst "a" "b" 7).1 = false ∧
     ((verify_file_operation hashDemo stEmptyDst "a" "b" 7).2).verification_failures
       = stEmptyDst.verification_failures ++ [⟨.destEmpty, "a", "b"⟩]) :=
  ⟨by decide, by decide, by decide,
    C6_size_check_amended hashDemo stEmptyDst "a" "b" 7
      (by decide) (by decide) (by decide)⟩

/-- C7 counterexample: the value returned to the caller is a bare boolean
that carries no failure reason: a SourceMissing-type failure and a
DestinationExists-type failure return exactly the same value, while the
distinguishing reason lives only in the instance logs.  So the failure is
not "returned to the caller as structured data" naming a reason. -/
theorem C7_failure_reporting_counterexample :
    (move_with_verification hashDemo envHonest stNone "a" "b" true).1
      = (move_with_verification hashDemo envHonest stBoth "a" "b" true).1 ∧
    (move_with_verification hashDemo envHonest stNone "a" "b" true).1 = false ∧
    ((move_with_verification hashDemo envHonest stNone "a" "b" true).2).error_log
      = [⟨"source_not_found"⟩] ∧
    ((move_with_verification hashDemo envHonest stBoth "a" "b" true).2).error_log
      = [⟨"destination_exists"⟩] ∧
    ErrEntry.mk "source_not_found" ≠ ErrEntry.mk "destination_exists" := by
  decide

/-- C7 (amended): every failing call returns False to the caller and, never
one without the other, appends exactly one audit record (marked
unsuccessful, with an error detail) and strictly grows the combined
error-log / verification-failure records, which is where the categorized
reason (source_not_found, destination_exists, move_exception,
rollback_failed, or a verification-failure entry) is kept; the returned
value itself carries no reason. -/
theorem C7_failure_reporting_amended (hash : Content → Nat) (env : Env)
    (s : VState) (source destination : FPath) (cb : Bool)
    (h : (move_with_verification hash env s source destination cb).1 = false) :
    (∃ rec : OpRecord,
      ((move_with_verification hash env s source destination cb).2).operation_log
        = s.operation_log ++ [rec] ∧
      rec.success = false ∧ rec.errorDetail.isSome = true) ∧
    s.error_log.length + s.verification_failures.length <
      ((move_with_verification hash env s source destination cb).2).error_log.length
        + ((move_with_verification hash env s source destination cb).2).verification_failures.length :=
  ⟨move_failure_record hash env s source destination cb h,
    move_failure_reason hash env s source destination cb h⟩

/-- Witness for the amended C7 at a concrete failing call. -/
theorem C7_failure_reporting_amended_witness :
    (move_with_verification hashDemo envHonest stNone "a" "b" true).1 = false ∧
    ((∃ rec : OpRecord,
        ((move_with_verification hashDemo envHonest stNone "a" "b" true).2).operation_log
          = stNone.operation_log ++ [rec] ∧
        rec.success = false ∧ rec.errorDetail.isSome = true) ∧
     stNone.error_log.length + stNone.verification_failures.length <
       ((move_with_verification hashDemo envHonest stNone "a" "b" true).2).error_log.length
         + ((move_with_verification hashDemo envHonest stNone "a" "b" true).2).verification_failures.length) :=
  ⟨by decide,
    C7_failure_reporting_amended hashDemo envHonest stNone "a" "b" true (by decide)⟩

/-- C9: backup-cleanup failure after a verified move is non-fatal: the
returned boolean is the same as with a succeeding cleanup; a successful
return still has the destination present and the source gone; and (when a
backup was taken) the backup file simply remains on disk. -/
theorem C9_cleanup_nonfatal (hash : Content → Nat) (env : Env) (s : VState)
    (source destination : FPath) (cb : Bool)
    (hbd : backupPathOf source ≠ destination) :
    ((move_with_verification hash { env with cleanupUnlinkOk := false } s source destination cb).1
      = (move_with_verification hash env s source destination cb).1) ∧
    ((move_with_verification hash { env with cleanupUnlinkOk := false } s source destination cb).1 = true →
      fsExists ((move_with_verification hash { env with cleanupUnlinkOk := false } s source destination cb).2).fs destination = true ∧
      fsExists ((move_with_verification hash { env with cleanupUnlinkOk := false } s source destination cb).2).fs source = false) ∧
    (cb = true → s.enable_rollback = true → env.backupOk = true →
      (move_with_verification hash { env with cleanupUnlinkOk := false } s source destination cb).1 = true →
      fsExists ((move_with_verification hash { env with cleanupUnlinkOk := false } s source destination cb).2).fs
        (backupPathOf source) = true) := by
  obtain ⟨bo, mr, rmr, ro, ru, cu⟩ := env
  refine ⟨move_fst_cleanup_indep hash s source destination cb bo mr rmr ro ru cu false,
    fun h => ⟨(move_success_spec hash ⟨bo, mr, rmr, ro, ru, false⟩ s source destination cb hbd h).2.1,
      (move_success_spec hash ⟨bo, mr, rmr, ro, ru, false⟩ s source destination cb hbd h).1⟩,
    fun hcb her hbo h => ?_⟩
  subst hcb
  exact move_success_backup_remains hash ⟨bo, mr, rmr, ro, ru, false⟩ s source destination
    hbd her hbo rfl h

/-- Witness for C9 at a concrete successful move whose cleanup fails. -/
theorem C9_cleanup_nonfatal_witness :
    backupPathOf "a" ≠ "b" ∧
    (move_with_verification hashDemo { envHonest with cleanupUnlinkOk := false } stDemo "a" "b" true).1
      = (move_with_verification hashDemo envHonest stDemo "a" "b" true).1 ∧
    (move_with_verification hashDemo { envHonest with cleanupUnlinkOk := false } stDemo "a" "b" true).1 = true ∧
    fsExists ((move_with_verification hashDemo { envHonest with cleanupUnlinkOk := false } stDemo "a" "b" true).2).fs
      (backupPathOf "a") = true :=
  ⟨by decide,
    (C9_cleanup_nonfatal hashDemo envHonest stDemo "a" "b" true (by decide)).1,
    by decide,
    (C9_cleanup_nonfatal hashDemo envHonest stDemo "a" "b" true (by decide)).2.2
      rfl rfl rfl (by decide)⟩
